import Mathlib

/-!
Verification of the GoFirestoreApp HTTP front-end (src/main.go).

The Go program is a four-endpoint HTTP server over a managed document
store (Firestore).  We embed the handlers shallowly: each Go handler
becomes a pure Lean function of the request together with the outcome of
the store call it performs; the store client itself is external to the
repository and is modelled from the specification (create with a
store-generated id, get by id, collection scan).  Responses are modelled
by their status code and an algebraic body; the JSON wire shape of the
success bodies is given by a separate encoding function mirroring Go's
encoding/json (map keys sorted alphabetically, struct fields in
declaration order, nil slice encoding to null and a non-nil empty slice
to the empty array).
-/

namespace GoFirestoreApp

/-- The `User` struct of src/main.go: fields `Name` and `Email`,
serialized as `name` and `email`. -/
structure User where
  name : String
  email : String
deriving DecidableEq

/-- Failure causes of a store operation.  The Go handlers only ever
inspect `err != nil`, never the cause; keeping distinct causes lets us
state that the mapping to a status code is uniform across causes. -/
inductive StoreErr where
  | notFound
  | unavailable
  | iterDone
deriving DecidableEq

/-- Raw data of a stored document as far as decoding into `User` is
concerned: each field is `some` when present and decodable as a string,
`none` otherwise (absent field or type mismatch). -/
structure DocData where
  nameField : Option String
  emailField : Option String
deriving DecidableEq

/-- The effect of `doc.DataTo(&user)` with its error return ignored, as
in `getUserHandler` and `listUsersHandler` of src/main.go: a field that
decoding did not populate keeps the Go zero value, the empty string. -/
def dataTo (d : DocData) : User :=
  { name := d.nameField.getD "", email := d.emailField.getD "" }

/-- An incoming HTTP request, reduced to the parts the handlers read.
`queryId` models the result of the Go call chain on line 72 of
src/main.go, which yields the empty string when the parameter is absent.
`body` models the result of decoding the request body as JSON into a
`User`: `none` when the body is malformed for that shape. -/
structure Request where
  method : String
  path : String
  queryId : String
  body : Option User
deriving DecidableEq

/-- A JSON value, for stating the wire shape of responses. -/
inductive Json where
  | null
  | str (s : String)
  | obj (fields : List (String × Json))
  | arr (elems : List Json)

/-- encoding/json on the `User` struct: fields in declaration order. -/
def userJson (u : User) : Json :=
  .obj [("name", .str u.name), ("email", .str u.email)]

/-- A response body: either the plain-text message written by
`http.Error`, one of the three JSON success bodies, or the static
HTML page.  `listUsersJson` carries the Go slice being encoded, with
`none` standing for a nil slice (which encoding/json renders as
`null`) and `some` for a non-nil slice. -/
inductive RespBody where
  | errorText (msg : String)
  | addUserJson (message : String) (id : String) (user : User)
  | getUserJson (id : String) (user : User)
  | listUsersJson (users : Option (List (String × User)))
  | htmlPage (html : String)
deriving DecidableEq

/-- An HTTP response: status code and body. -/
structure Response where
  status : Nat
  body : RespBody
deriving DecidableEq

/-- The JSON wire form of a response body, when the body is JSON at all
(`http.Error` bodies and the HTML page are not).  Go's encoding/json
writes the keys of a `map[string]interface\x7b\x7d` in sorted order,
hence `id`, `message`, `user`. -/
def bodyJson : RespBody → Option Json
  | .errorText _ => none
  | .addUserJson msg id u =>
      some (.obj [("id", .str id), ("message", .str msg), ("user", userJson u)])
  | .getUserJson id u =>
      some (.obj [("id", .str id), ("user", userJson u)])
  | .listUsersJson none => some .null
  | .listUsersJson (some l) =>
      some (.arr (l.map fun p => .obj [("id", .str p.1), ("user", userJson p.2)]))
  | .htmlPage _ => none

/-- The store operations a handler can perform, recorded as a log so
that absence of side effects is statable. -/
inductive StoreOp where
  | createUser (u : User)
  | getDoc (id : String)
  | scanAll
deriving DecidableEq

/-- Shallow embedding of `addUserHandler` (src/main.go lines 37-63),
parametric in the store's create operation: non-POST gives 405 before
touching the store; a body that fails to decode gives 400; a create
failure gives 500; otherwise 200 with the message, the generated id and
the echoed decoded user. -/
def addUserHandler (r : Request) (create : User → Except StoreErr String) :
    Response × List StoreOp :=
  if r.method ≠ "POST" then
    (⟨405, .errorText "Invalid request method"⟩, [])
  else
    match r.body with
    | none => (⟨400, .errorText "Invalid request body"⟩, [])
    | some user =>
        match create user with
        | .error _ => (⟨500, .errorText "Error adding user"⟩, [.createUser user])
        | .ok id =>
            (⟨200, .addUserJson "User added successfully" id user⟩, [.createUser user])

/-- Shallow embedding of `getUserHandler` (src/main.go lines 66-93),
parametric in the store's lookup: non-GET gives 405; an absent or empty
`id` parameter gives 400; any lookup failure gives 404; otherwise 200
with the id and the decoded document. -/
def getUserHandler (r : Request) (lookup : String → Except StoreErr DocData) :
    Response × List StoreOp :=
  if r.method ≠ "GET" then
    (⟨405, .errorText "Invalid request method"⟩, [])
  else if r.queryId = "" then
    (⟨400, .errorText "User ID required"⟩, [])
  else
    match lookup r.queryId with
    | .error _ => (⟨404, .errorText "User not found"⟩, [.getDoc r.queryId])
    | .ok d => (⟨200, .getUserJson r.queryId (dataTo d)⟩, [.getDoc r.queryId])

/-- The collection loop of `listUsersHandler` (src/main.go lines
106-117): consume iterator results until the first error, decoding each
document; the first error (end of iteration or any store failure) only
breaks the loop. -/
def collectUsers : List (Except StoreErr (String × DocData)) → List (String × User)
  | [] => []
  | .error _ :: _ => []
  | .ok (id, d) :: rest => (id, dataTo d) :: collectUsers rest

/-- Shallow embedding of `listUsersHandler` (src/main.go lines 96-121),
parametric in the sequence of iterator results: non-GET gives 405;
otherwise 200 with the slice accumulated before the first iterator
error.  The slice starts as a non-nil empty slice (line 103), hence the
`some`. -/
def listUsersHandler (r : Request)
    (iter : List (Except StoreErr (String × DocData))) :
    Response × List StoreOp :=
  if r.method ≠ "GET" then
    (⟨405, .errorText "Invalid request method"⟩, [])
  else
    (⟨200, .listUsersJson (some (collectUsers iter))⟩, [.scanAll])

/-- Modelled from the spec: the store-generated identifier of the n-th
created document.  The spec only requires an opaque identifier assigned
by the store at creation time, fresh and non-empty; any injective scheme
of non-empty strings is a faithful model. -/
def genId (n : Nat) : String :=
  "doc" ++ String.mk (List.replicate n 'x')

/-- The document data the store holds after creating a record from a
user: both fields present as strings. -/
def userToDoc (u : User) : DocData :=
  ⟨some u.name, some u.email⟩

/-- Modelled from the spec: the document store (an external
collaborator, §2 of the spec), as the sequence of documents of the
`users` collection in creation order plus a counter for fresh ids. -/
structure Store where
  docs : List (String × DocData)
  nextId : Nat
deriving DecidableEq

/-- Modelled from the spec: create-with-generated-id.  Returns the fresh
id and appends the new document to the collection. -/
def Store.createDoc (s : Store) (u : User) : String × Store :=
  (genId s.nextId, ⟨s.docs ++ [(genId s.nextId, userToDoc u)], s.nextId + 1⟩)

/-- Modelled from the spec: get-by-id.  Fails when no document of the
collection has the requested id. -/
def Store.lookupDoc (s : Store) (id : String) : Except StoreErr DocData :=
  match s.docs.lookup id with
  | some d => .ok d
  | none => .error .notFound

/-- Modelled from the spec: collection scan.  The iterator yields every
document of the collection and then the end-of-iteration error. -/
def Store.scanDocs (s : Store) : List (Except StoreErr (String × DocData)) :=
  s.docs.map .ok ++ [.error .iterDone]

/-- Replay a handler's store-operation log against the store. -/
def applyOp (s : Store) : StoreOp → Store
  | .createUser u => (s.createDoc u).2
  | .getDoc _ => s
  | .scanAll => s

/-- Replay a whole log. -/
def applyOps (s : Store) (ops : List StoreOp) : Store :=
  ops.foldl applyOp s

/-- The add endpoint run against the modelled store: the handler with
the store's create operation, and the store after the logged effects. -/
def sysAdd (s : Store) (r : Request) : Response × Store :=
  let h := addUserHandler r fun u => .ok (s.createDoc u).1
  (h.1, applyOps s h.2)

/-- The get endpoint run against the modelled store (no store effect). -/
def sysGet (s : Store) (r : Request) : Response :=
  (getUserHandler r s.lookupDoc).1

/-- The list endpoint run against the modelled store (no store
effect). -/
def sysList (s : Store) (r : Request) : Response :=
  (listUsersHandler r s.scanDocs).1

/-- A store is well formed when every id at or beyond the fresh counter
is absent from the collection, so the next generated id is fresh. -/
def Store.WF (s : Store) : Prop :=
  ∀ k, s.nextId ≤ k → s.docs.lookup (genId k) = none

/-- The request `POST /addUser` with a body that decodes to `u`. -/
def mkAddReq (u : User) : Request :=
  ⟨"POST", "/addUser", "", some u⟩

/-- Run a sequence of adds, threading the store. -/
def addMany (s : Store) (us : List User) : Store :=
  us.foldl (fun st u => (sysAdd st (mkAddReq u)).2) s

/-- The four routing targets registered in `main` (src/main.go lines
163-166). -/
inductive RouteTarget where
  | addUser
  | getUser
  | listUsers
  | home
deriving DecidableEq

/-- Dispatch of net/http's ServeMux over the four registered patterns:
the three exact patterns match only their exact path, and the pattern
for the root is a prefix pattern matching every other path. -/
def route (path : String) : RouteTarget :=
  if path = "/addUser" then .addUser
  else if path = "/getUser" then .getUser
  else if path = "/listUsers" then .listUsers
  else .home

/-- The static page of `homeHandler` (src/main.go lines 124-158): the
template has no actions, so executing it writes the literal text. -/
def homePage : String :=
  "<!DOCTYPE html><html lang=\"en\"><head><meta charset=\"UTF-8\">" ++
  "<meta name=\"viewport\" content=\"width=device-width, initial-scale=1.0\">" ++
  "<title>Firestore API</title><style>" ++
  "body \x7b font-family: Arial, sans-serif; text-align: center; padding: 20px; \x7d " ++
  "h1 \x7b color: #2c3e50; \x7d " ++
  ".container \x7b max-width: 600px; margin: auto; padding: 20px; border-radius: 10px; background: #f4f4f4; \x7d " ++
  ".api-list \x7b text-align: left; margin-top: 20px; \x7d " ++
  "a \x7b color: #2980b9; text-decoration: none; font-weight: bold; \x7d " ++
  "</style></head><body><div class=\"container\">" ++
  "<h1>🔥 Welcome to Firestore API</h1>" ++
  "<p>This API allows you to store and retrieve users from Firestore.</p>" ++
  "<div class=\"api-list\"><h3>Available Endpoints:</h3><ul>" ++
  "<li><strong>POST</strong> <a href=\"/addUser\">/addUser</a> - Add a user (use Postman or curl)</li>" ++
  "<li><strong>GET</strong> <a href=\"/listUsers\">/listUsers</a> - List all users</li>" ++
  "<li><strong>GET</strong> <a href=\"/getUser?id=yourUserID\">/getUser?id=yourUserID</a> - Get user by ID</li>" ++
  "</ul></div></div></body></html>"

/-- Shallow embedding of `homeHandler`: writes the static page; with no
explicit status, net/http sends 200 on the first write. -/
def homeResponse : Response :=
  ⟨200, .htmlPage homePage⟩

/-- One full request against the server: dispatch by path, run the
matched handler against the store, return the response and the store
afterwards. -/
def serve (s : Store) (r : Request) : Response × Store :=
  match route r.path with
  | .addUser => sysAdd s r
  | .getUser => (sysGet s r, s)
  | .listUsers => (sysList s r, s)
  | .home => (homeResponse, s)

/-- Observable startup events of `main` together with `initFirestore`
(src/main.go lines 25-34 and 160-170). -/
inductive MainEvent where
  | initStore
  | fatalExit
  | registerRoutes
  | listen (port : Nat)
deriving DecidableEq

/-- Shallow embedding of the startup path, parametric in the outcome of
creating the store client: `log.Fatalf` terminates the process inside
`initFirestore`, so on failure nothing after it runs; on success the
routes are registered and the server listens on port 8000. -/
def mainTrace (clientInit : Except StoreErr Unit) : List MainEvent :=
  match clientInit with
  | .error _ => [.initStore, .fatalExit]
  | .ok _ => [.initStore, .registerRoutes, .listen 8000]

/-- Claim C1: on a POST to /addUser, a body that does not decode gives
status 400; a decodable body whose store create fails gives status 500
with the plain error text and no success body; a successful create gives
status 200 whose JSON body has exactly the fields id, message and user,
with the decoded user echoed. -/
theorem addUser_status_mapping (r : Request)
    (create : User → Except StoreErr String) (hm : r.method = "POST") :
    (r.body = none →
      (addUserHandler r create).1 = ⟨400, .errorText "Invalid request body"⟩) ∧
    (∀ u e, r.body = some u → create u = .error e →
      (addUserHandler r create).1 = ⟨500, .errorText "Error adding user"⟩) ∧
    (∀ u id, r.body = some u → create u = .ok id →
      (addUserHandler r create).1.status = 200 ∧
      bodyJson (addUserHandler r create).1.body =
        some (.obj [("id", .str id),
                    ("message", .str "User added successfully"),
                    ("user", userJson u)])) := by
  refine ⟨fun hb => ?_, fun u e hb hc => ?_, fun u id hb hc => ?_⟩
  · simp [addUserHandler, hm, hb]
  · simp [addUserHandler, hm, hb, hc]
  · simp [addUserHandler, hm, hb, hc, bodyJson]

/-- Witness for C1 at concrete inputs. -/
theorem addUser_status_mapping_witness :
    (addUserHandler ⟨"POST", "/addUser", "", none⟩ (fun _ => .ok "abc")).1 =
      ⟨400, .errorText "Invalid request body"⟩ :=
  (addUser_status_mapping ⟨"POST", "/addUser", "", none⟩ (fun _ => .ok "abc") rfl).1 rfl

/-- A generated id is never the empty string. -/
theorem genId_ne_empty (n : Nat) : genId n ≠ "" := by
  intro h
  have h2 : (genId n).data = "".data := congrArg String.data h
  simp [genId, String.data] at h2

/-- Looking up a key absent from the first list skips to the second. -/
theorem lookup_append_of_none {α β : Type} [BEq α] (l1 l2 : List (α × β)) (k : α)
    (h : l1.lookup k = none) : (l1 ++ l2).lookup k = l2.lookup k := by
  induction l1 with
  | nil => simp
  | cons p t ih =>
    simp only [List.lookup, List.cons_append] at h ⊢
    cases hk : (k == p.1) with
    | true => simp [hk] at h
    | false => simp [hk] at h ⊢; exact ih h

/-- One add with a decodable body: 200 with the fresh id and the echoed
user, and the new document appended to the collection. -/
theorem sysAdd_mkAddReq (s : Store) (u : User) :
    sysAdd s (mkAddReq u) =
      (⟨200, .addUserJson "User added successfully" (genId s.nextId) u⟩,
       ⟨s.docs ++ [(genId s.nextId, userToDoc u)], s.nextId + 1⟩) := by
  simp [sysAdd, addUserHandler, mkAddReq, applyOps, applyOp, Store.createDoc]

/-- The collection loop keeps exactly the documents before the first
iterator error and drops the error and everything after it. -/
theorem collectUsers_until_error (l : List (String × DocData)) (e : StoreErr)
    (rest : List (Except StoreErr (String × DocData))) :
    collectUsers (l.map .ok ++ .error e :: rest) =
      l.map fun p => (p.1, dataTo p.2) := by
  induction l with
  | nil => simp [collectUsers]
  | cons p t ih =>
    obtain ⟨id, d⟩ := p
    simp [collectUsers, ih]

/-- Claim C2: every POST to /addUser whose body decodes succeeds against
the modelled store with a non-empty generated id and a user object equal
to the decoded input. -/
theorem addUser_success_echoes_input (s : Store) (r : Request) (u : User)
    (hm : r.method = "POST") (hb : r.body = some u) :
    ∃ id, (sysAdd s r).1 = ⟨200, .addUserJson "User added successfully" id u⟩ ∧
      id ≠ "" := by
  refine ⟨genId s.nextId, ?_, genId_ne_empty s.nextId⟩
  simp [sysAdd, addUserHandler, hm, hb, Store.createDoc]

/-- Witness for C2 at a concrete store and payload. -/
theorem addUser_success_echoes_input_witness :
    ∃ id, (sysAdd ⟨[], 0⟩ ⟨"POST", "/addUser", "", some ⟨"Ada", "ada@x.io"⟩⟩).1 =
      ⟨200, .addUserJson "User added successfully" id ⟨"Ada", "ada@x.io"⟩⟩ ∧
      id ≠ "" :=
  addUser_success_echoes_input ⟨[], 0⟩ _ ⟨"Ada", "ada@x.io"⟩ rfl rfl

/-- Claim C3: on a GET to /getUser, an absent or empty id parameter
gives 400, and with an id present every lookup failure gives 404
uniformly, whatever the failure cause. -/
theorem getUser_missing_id_and_lookup_failure (r : Request)
    (lookup : String → Except StoreErr DocData) (hm : r.method = "GET") :
    (r.queryId = "" →
      (getUserHandler r lookup).1 = ⟨400, .errorText "User ID required"⟩) ∧
    (∀ e, r.queryId ≠ "" → lookup r.queryId = .error e →
      (getUserHandler r lookup).1 = ⟨404, .errorText "User not found"⟩) := by
  refine ⟨fun hid => ?_, fun e hid hl => ?_⟩
  · simp [getUserHandler, hm, hid]
  · simp [getUserHandler, hm, hid, hl]

/-- Witness for C3: the 400 case and the 404 case on two lookup-failure
causes, at concrete requests. -/
theorem getUser_missing_id_and_lookup_failure_witness :
    (getUserHandler ⟨"GET", "/getUser", "", none⟩ (fun _ => .error .notFound)).1 =
      ⟨400, .errorText "User ID required"⟩ ∧
    (getUserHandler ⟨"GET", "/getUser", "zzz", none⟩ (fun _ => .error .notFound)).1 =
      ⟨404, .errorText "User not found"⟩ ∧
    (getUserHandler ⟨"GET", "/getUser", "zzz", none⟩ (fun _ => .error .unavailable)).1 =
      ⟨404, .errorText "User not found"⟩ :=
  ⟨(getUser_missing_id_and_lookup_failure _ _ rfl).1 rfl,
   (getUser_missing_id_and_lookup_failure _ _ rfl).2 .notFound (by decide) rfl,
   (getUser_missing_id_and_lookup_failure _ _ rfl).2 .unavailable (by decide) rfl⟩

/-- Claim C4: adding a user and then fetching the returned id (with no
intervening store failure) gives 200 with that id and the very record
that was added. -/
theorem add_then_get_roundtrip (s : Store) (u : User) (id : String)
    (hwf : Store.WF s)
    (hid : (sysAdd s (mkAddReq u)).1.body = .addUserJson "User added successfully" id u) :
    sysGet (sysAdd s (mkAddReq u)).2 ⟨"GET", "/getUser", id, none⟩ =
      ⟨200, .getUserJson id u⟩ := by
  rw [sysAdd_mkAddReq] at hid ⊢
  have hgen : genId s.nextId = id := by
    injection hid with h1 h2 h3
  subst hgen
  have hfresh : s.docs.lookup (genId s.nextId) = none := hwf s.nextId le_rfl
  have hlook : Store.lookupDoc
      ⟨s.docs ++ [(genId s.nextId, ⟨some u.name, some u.email⟩)], s.nextId + 1⟩
      (genId s.nextId) = .ok ⟨some u.name, some u.email⟩ := by
    simp [Store.lookupDoc, lookup_append_of_none _ _ _ hfresh, List.lookup]
  simp [sysGet, getUserHandler, genId_ne_empty s.nextId, userToDoc, hlook, dataTo]

/-- Witness for C4: on the empty store, add then get round-trips. -/
theorem add_then_get_roundtrip_witness :
    sysGet (sysAdd ⟨[], 0⟩ (mkAddReq ⟨"Ada", "ada@x.io"⟩)).2
        ⟨"GET", "/getUser", "doc", none⟩ =
      ⟨200, .getUserJson "doc" ⟨"Ada", "ada@x.io"⟩⟩ :=
  add_then_get_roundtrip ⟨[], 0⟩ ⟨"Ada", "ada@x.io"⟩ "doc"
    (fun _ _ => rfl) (by decide)

/-- Running a sequence of adds appends one document per added user, each
holding that user's data. -/
theorem addMany_docs (s : Store) (us : List User) :
    ∃ extra : List (String × DocData),
      (addMany s us).docs = s.docs ++ extra ∧
      extra.length = us.length ∧
      ∀ u ∈ us, ∃ id, (id, userToDoc u) ∈ extra := by
  induction us generalizing s with
  | nil => exact ⟨[], by simp [addMany], rfl, by simp⟩
  | cons u rest ih =>
    obtain ⟨extra, hdocs, hlen, hmem⟩ := ih (sysAdd s (mkAddReq u)).2
    refine ⟨(genId s.nextId, userToDoc u) :: extra, ?_, by simp [hlen], ?_⟩
    · have hstep : addMany s (u :: rest) = addMany (sysAdd s (mkAddReq u)).2 rest := by
        simp [addMany]
      rw [hstep, hdocs, sysAdd_mkAddReq]
      simp
    · intro v hv
      rcases List.mem_cons.mp hv with h | h
      · exact ⟨genId s.nextId, by rw [h]; exact List.mem_cons_self _ _⟩
      · obtain ⟨id, hi⟩ := hmem v h
        exact ⟨id, List.mem_cons_of_mem _ hi⟩

/-- Claim C5: with an enumeration that reaches the end, /listUsers on
the empty collection answers with the empty JSON array (not null), and
after N adds it answers with an array of length at least N in which
every added record appears as an id-user pair. -/
theorem listUsers_empty_and_after_adds (s : Store) (us : List User) (r : Request)
    (hm : r.method = "GET") :
    (bodyJson (sysList ⟨[], 0⟩ r).body = some (.arr []) ∧
      bodyJson (sysList ⟨[], 0⟩ r).body ≠ some .null) ∧
    ∃ items, (sysList (addMany s us) r).body = .listUsersJson (some items) ∧
      us.length ≤ items.length ∧
      ∀ u ∈ us, ∃ id, (id, u) ∈ items := by
  constructor
  · have h : sysList ⟨[], 0⟩ r = ⟨200, .listUsersJson (some [])⟩ := by
      simp [sysList, listUsersHandler, hm, Store.scanDocs, collectUsers]
    rw [h]
    simp [bodyJson]
  · obtain ⟨extra, hdocs, hlen, hmem⟩ := addMany_docs s us
    refine ⟨(addMany s us).docs.map fun p => (p.1, dataTo p.2), ?_, ?_, ?_⟩
    · simp [sysList, listUsersHandler, hm, Store.scanDocs, collectUsers_until_error]
    · rw [hdocs]
      simp [hlen]
    · intro u hu
      obtain ⟨id, hi⟩ := hmem u hu
      refine ⟨id, ?_⟩
      rw [hdocs]
      have hin : (id, userToDoc u) ∈ s.docs ++ extra := List.mem_append_right _ hi
      exact List.mem_map_of_mem (fun p => (p.1, dataTo p.2)) hin

/-- Witness for C5 at a concrete store, payload list and request. -/
theorem listUsers_empty_and_after_adds_witness :
    (bodyJson (sysList ⟨[], 0⟩ ⟨"GET", "/listUsers", "", none⟩).body = some (.arr []) ∧
      bodyJson (sysList ⟨[], 0⟩ ⟨"GET", "/listUsers", "", none⟩).body ≠ some .null) ∧
    ∃ items, (sysList (addMany ⟨[], 0⟩ [⟨"Ada", "ada@x.io"⟩])
        ⟨"GET", "/listUsers", "", none⟩).body = .listUsersJson (some items) ∧
      [User.mk "Ada" "ada@x.io"].length ≤ items.length ∧
      ∀ u ∈ [User.mk "Ada" "ada@x.io"], ∃ id, (id, u) ∈ items :=
  listUsers_empty_and_after_adds ⟨[], 0⟩ [⟨"Ada", "ada@x.io"⟩]
    ⟨"GET", "/listUsers", "", none⟩ rfl

/-- Claim C6: for any GET to /listUsers, whatever the iterator yields,
the response is always status 200 and the array holds exactly the
records before the first iterator error; the error cause and everything
after it are dropped silently, so a truncated scan is indistinguishable
from a complete one. -/
theorem listUsers_stops_at_first_error (r : Request) (hm : r.method = "GET")
    (docs : List (String × DocData)) (e : StoreErr)
    (rest : List (Except StoreErr (String × DocData))) :
    (listUsersHandler r (docs.map .ok ++ .error e :: rest)).1.status = 200 ∧
    (listUsersHandler r (docs.map .ok ++ .error e :: rest)).1.body =
      .listUsersJson (some (docs.map fun p => (p.1, dataTo p.2))) := by
  constructor
  · simp [listUsersHandler, hm]
  · simp [listUsersHandler, hm, collectUsers_until_error]

/-- Witness for C6: a mid-scan store failure truncates the array after
the first document and still answers 200, dropping the document that the
iterator would have yielded after the error. -/
theorem listUsers_stops_at_first_error_witness :
    (listUsersHandler ⟨"GET", "/listUsers", "", none⟩
        ([("d1", ⟨some "Ada", some "ada@x.io"⟩)].map .ok ++
          .error .unavailable :: [.ok ("d2", ⟨some "Bob", some "bob@x.io"⟩)])).1.status
      = 200 ∧
    (listUsersHandler ⟨"GET", "/listUsers", "", none⟩
        ([("d1", ⟨some "Ada", some "ada@x.io"⟩)].map .ok ++
          .error .unavailable :: [.ok ("d2", ⟨some "Bob", some "bob@x.io"⟩)])).1.body
      = .listUsersJson (some [("d1", ⟨"Ada", "ada@x.io"⟩)]) :=
  listUsers_stops_at_first_error ⟨"GET", "/listUsers", "", none⟩ rfl
    [("d1", ⟨some "Ada", some "ada@x.io"⟩)] .unavailable
    [.ok ("d2", ⟨some "Bob", some "bob@x.io"⟩)]

/-- Claim C7: a request with the wrong method yields 405 from each
handler with an empty store-operation log, so the store is untouched; in
particular a non-POST add request leaves the store unchanged. -/
theorem method_gating_405_before_store (r : Request)
    (create : User → Except StoreErr String)
    (lookup : String → Except StoreErr DocData)
    (iter : List (Except StoreErr (String × DocData))) (s : Store) :
    (r.method ≠ "POST" →
      addUserHandler r create = (⟨405, .errorText "Invalid request method"⟩, []) ∧
      (sysAdd s r).2 = s) ∧
    (r.method ≠ "GET" →
      getUserHandler r lookup = (⟨405, .errorText "Invalid request method"⟩, []) ∧
      listUsersHandler r iter = (⟨405, .errorText "Invalid request method"⟩, [])) := by
  refine ⟨fun h => ⟨?_, ?_⟩, fun h => ⟨?_, ?_⟩⟩
  · simp [addUserHandler, h]
  · simp [sysAdd, addUserHandler, h, applyOps]
  · simp [getUserHandler, h]
  · simp [listUsersHandler, h]

/-- Witness for C7 with method PUT, wrong for all three endpoints. -/
theorem method_gating_405_before_store_witness :
    (addUserHandler ⟨"PUT", "/addUser", "", some ⟨"Ada", "ada@x.io"⟩⟩
        (fun _ => .ok "id1") =
      (⟨405, .errorText "Invalid request method"⟩, []) ∧
      (sysAdd ⟨[], 0⟩ ⟨"PUT", "/addUser", "", some ⟨"Ada", "ada@x.io"⟩⟩).2 = ⟨[], 0⟩) ∧
    (getUserHandler ⟨"PUT", "/getUser", "u1", none⟩ (fun _ => .error .notFound) =
      (⟨405, .errorText "Invalid request method"⟩, []) ∧
      listUsersHandler ⟨"PUT", "/listUsers", "", none⟩ [] =
        (⟨405, .errorText "Invalid request method"⟩, [])) :=
  ⟨(method_gating_405_before_store ⟨"PUT", "/addUser", "", some ⟨"Ada", "ada@x.io"⟩⟩
      (fun _ => .ok "id1") (fun _ => .error .notFound) [] ⟨[], 0⟩).1 (by decide),
   (method_gating_405_before_store ⟨"PUT", "/getUser", "u1", none⟩
      (fun _ => .ok "id1") (fun _ => .error .notFound) [] ⟨[], 0⟩).2 (by decide) |>.imp
        id (fun _ => (method_gating_405_before_store ⟨"PUT", "/listUsers", "", none⟩
      (fun _ => .ok "id1") (fun _ => .error .notFound) [] ⟨[], 0⟩).2 (by decide) |>.2)⟩

/-- Claim C8: when creating the store client fails at startup the
process exits fatally and never reaches listening; when it succeeds the
routes are registered and the server listens on port 8000. -/
theorem startup_fail_fast (res : Except StoreErr Unit) :
    (∀ e, res = .error e →
      mainTrace res = [.initStore, .fatalExit] ∧
      ∀ p, MainEvent.listen p ∉ mainTrace res) ∧
    (res = .ok () →
      mainTrace res = [.initStore, .registerRoutes, .listen 8000]) := by
  refine ⟨fun e he => ?_, fun hok => ?_⟩
  · subst he
    refine ⟨rfl, fun p hp => ?_⟩
    simp [mainTrace] at hp
  · subst hok
    rfl

/-- Witness for C8 at a failing and at a succeeding initialization. -/
theorem startup_fail_fast_witness :
    (mainTrace (.error .unavailable) = [.initStore, .fatalExit] ∧
      ∀ p, MainEvent.listen p ∉ mainTrace (.error .unavailable)) ∧
    mainTrace (.ok ()) = [.initStore, .registerRoutes, .listen 8000] :=
  ⟨(startup_fail_fast (.error .unavailable)).1 .unavailable rfl,
   (startup_fail_fast (.ok ())).2 rfl⟩

/-- Claim C9: every request whose path is none of the three registered
API paths is dispatched to the home handler and answered 200 with the
static page, whatever the method, and the store is untouched; no unknown
path ever yields 404. -/
theorem unknown_path_served_by_home (s : Store) (r : Request)
    (h1 : r.path ≠ "/addUser") (h2 : r.path ≠ "/getUser")
    (h3 : r.path ≠ "/listUsers") :
    serve s r = (⟨200, .htmlPage homePage⟩, s) := by
  simp [serve, route, h1, h2, h3, homeResponse]

/-- Witness for C9: a DELETE to an unregistered path gets the page. -/
theorem unknown_path_served_by_home_witness :
    serve ⟨[], 0⟩ ⟨"DELETE", "/foo", "", none⟩ =
      (⟨200, .htmlPage homePage⟩, ⟨[], 0⟩) :=
  unknown_path_served_by_home ⟨[], 0⟩ ⟨"DELETE", "/foo", "", none⟩
    (by decide) (by decide) (by decide)

/-- Claim C10: when the lookup succeeds but the document's data does not
decode into the user shape, the error is ignored: the response is still
200 and each unpopulated field is the empty string. -/
theorem getUser_decode_failure_swallowed (r : Request)
    (lookup : String → Except StoreErr DocData) (d : DocData)
    (hm : r.method = "GET") (hid : r.queryId ≠ "") (hl : lookup r.queryId = .ok d) :
    (getUserHandler r lookup).1 =
      ⟨200, .getUserJson r.queryId ⟨d.nameField.getD "", d.emailField.getD ""⟩⟩ := by
  simp [getUserHandler, hm, hid, hl, dataTo]

/-- Witness for C10: a document with no decodable name field comes back
200 with an empty name. -/
theorem getUser_decode_failure_swallowed_witness :
    (getUserHandler ⟨"GET", "/getUser", "u1", none⟩
        (fun _ => .ok ⟨none, some "ada@x.io"⟩)).1 =
      ⟨200, .getUserJson "u1" ⟨"", "ada@x.io"⟩⟩ :=
  getUser_decode_failure_swallowed ⟨"GET", "/getUser", "u1", none⟩
    (fun _ => .ok ⟨none, some "ada@x.io"⟩) ⟨none, some "ada@x.io"⟩
    rfl (by decide) rfl

end GoFirestoreApp
